import Mathlib

/-!
Verification of the timeline-lifecycle and path-motion subsystem of the
slide-deck presentation renderer (React + GSAP).  The definitions below are a
shallow embedding of the repository's TypeScript source:

* `animateDot` / `animateDotReverse` embed
  `src/components/slides/shared/animate-dot.ts`,
* `bezierH` embeds `src/components/slides/shared/constants.ts`,
* the timeline trace model embeds the GSAP effect bodies of
  `EngineFlowSlide.tsx` and `LLMFlowSlide.tsx` together with the documented
  semantics of the GSAP primitives they call (`timeline({paused: true})`,
  `eventCallback`, `play`, `pause(0)`, `restart`, `kill`),
* `goToSlide` / `nextSlide` / `prevSlide` embed `useSlideNavigation.ts`.
-/

/-- A curve as the slides use it: an SVG path element exposing
`getTotalLength()` and `getPointAtLength(d)`.  `length` models
`path.getTotalLength()` and `pointAt` models `path.getPointAtLength`. -/
structure Curve where
  length : ℚ
  pointAt : ℚ → ℚ × ℚ

/-- Easing names that appear in `animate-dot.ts` (`"sine.inOut"` on the main
tween, `"power2.out"` on the completion fade). -/
inductive EaseKind where
  | sineInOut
  | power2Out
  deriving DecidableEq

/-- One tween inserted into a GSAP timeline by the marker-motion primitive.
`posAt` is the dot-centre write performed by the tween's `onUpdate` callback
as a function of `this.progress()` (the tween's playhead fraction);
`completeFadeOpacity` / `completeFadeDuration` / `completeFadeEase` describe
the separate `gsap.to(dot, ...)` tween spawned by `onComplete`. -/
structure DotTween where
  fromOpacity : ℚ
  toOpacity : ℚ
  duration : ℚ
  startTime : ℚ
  ease : EaseKind
  posAt : ℚ → ℚ × ℚ
  completeFadeOpacity : ℚ
  completeFadeDuration : ℚ
  completeFadeEase : EaseKind

/-- Embeds `animateDot` (animate-dot.ts lines 7-33): a single
`tl.fromTo(dot, { opacity: 0 }, { opacity: 0.9, duration, ease: "sine.inOut",
onUpdate, onComplete }, startTime)` call whose `onUpdate` sets the dot centre
to `path.getPointAtLength(progress * len)` and whose `onComplete` spawns
`gsap.to(dot, { opacity: 0, duration: 0.12, ease: "power2.out" })`. -/
def animateDot (path : Curve) (duration startTime : ℚ) : DotTween where
  fromOpacity := 0
  toOpacity := 0.9
  duration := duration
  startTime := startTime
  ease := EaseKind.sineInOut
  posAt := fun p => path.pointAt (p * path.length)
  completeFadeOpacity := 0
  completeFadeDuration := 0.12
  completeFadeEase := EaseKind.power2Out

/-- Embeds `animateDotReverse` (animate-dot.ts lines 39-65): identical to
`animateDot` except that `onUpdate` samples the path at
`(1 - progress) * len`, so the dot travels end to start. -/
def animateDotReverse (path : Curve) (duration startTime : ℚ) : DotTween where
  fromOpacity := 0
  toOpacity := 0.9
  duration := duration
  startTime := startTime
  ease := EaseKind.sineInOut
  posAt := fun p => path.pointAt ((1 - p) * path.length)
  completeFadeOpacity := 0
  completeFadeDuration := 0.12
  completeFadeEase := EaseKind.power2Out

/-- The effect of one `animateDot` call on the enclosing timeline's list of
inserted tweens: the single `tl.fromTo` call appends exactly one tween. -/
def animateDotInto (tl : List DotTween) (path : Curve) (duration startTime : ℚ) :
    List DotTween :=
  tl ++ [animateDot path duration startTime]

/-- A concrete straight-line test curve of length 100 (points on the x-axis),
used to instantiate universally quantified theorems. -/
def unitCurve : Curve where
  length := 100
  pointAt := fun d => (d, 0)

/-- A single cubic Bezier segment `M p0 C c1, c2, p3`, the parsed form of the
SVG path string that `bezierH` builds. -/
structure CubicSeg where
  p0 : ℚ × ℚ
  c1 : ℚ × ℚ
  c2 : ℚ × ℚ
  p3 : ℚ × ℚ

/-- Embeds `bezierH` (constants.ts lines 36-44).  The source returns the
string `M x1 y1 C cpx y1, cpx y2, x2 y2` with `cpx = (x1 + x2) / 2`; the
embedding is the parsed single-segment path. -/
def bezierH (x1 y1 x2 y2 : ℚ) : CubicSeg where
  p0 := (x1, y1)
  c1 := ((x1 + x2) / 2, y1)
  c2 := ((x1 + x2) / 2, y2)
  p3 := ((x2, y2))

/-- Standard cubic Bezier evaluation of a segment at parameter `t`. -/
def cubicPoint (s : CubicSeg) (t : ℚ) : ℚ × ℚ :=
  ((1 - t) ^ 3 * s.p0.1 + 3 * (1 - t) ^ 2 * t * s.c1.1
      + 3 * (1 - t) * t ^ 2 * s.c2.1 + t ^ 3 * s.p3.1,
   (1 - t) ^ 3 * s.p0.2 + 3 * (1 - t) ^ 2 * t * s.c1.2
      + 3 * (1 - t) * t ^ 2 * s.c2.2 + t ^ 3 * s.p3.2)

/-- Selectors for the animation targets of `LLMFlowSlide`'s fast loop (the
`querySelector` class names used at lines 179-209 of LLMFlowSlide.tsx). -/
inductive Sel where
  | pathExRedis
  | dotExRedis
  | pathRedisEngine
  | dotRedisEngine
  | intPath (i : ℕ)
  | intDot (i : ℕ)
  | pathEngineBroker
  | dotEngineBroker
  | pathBrokerEngine
  | dotBrokerEngine
  | pathEngineDb
  | dotEngineDb
  deriving DecidableEq

/-- The scene graph as the schedule builder sees it: `path` models
`svg.querySelector<SVGPathElement>(sel)` (returning the curve when the
element is mounted, `none` otherwise) and `dot` models the presence of
`svg.querySelector<SVGCircleElement>(sel)`. -/
structure Scene where
  path : Sel → Option Curve
  dot : Sel → Bool

/-- One guarded motion insertion, embedding the source pattern
`if (p && d) animateDot(d, p, tl, duration, startTime)`: when either query
came back empty the call is skipped, otherwise one tween is appended. -/
def addDot (sc : Scene) (ps ds : Sel) (duration startTime : ℚ) :
    List (Sel × DotTween) :=
  match sc.path ps, sc.dot ds with
  | some c, true => [(ds, animateDot c duration startTime)]
  | _, _ => []

/-- Reverse variant, embedding
`if (p && d) animateDotReverse(d, p, tl, duration, startTime)`. -/
def addDotReverse (sc : Scene) (ps ds : Sel) (duration startTime : ℚ) :
    List (Sel × DotTween) :=
  match sc.path ps, sc.dot ds with
  | some c, true => [(ds, animateDotReverse c duration startTime)]
  | _, _ => []

/-- The dot motions inserted into `LLMFlowSlide`'s fast loop timeline
(LLMFlowSlide.tsx lines 179-209), in source order; the
`for (let i = 0; i < ENGINE_ITEM_COUNT; i++)` loop over the four internal
fan-out paths is unrolled. -/
def buildFastLoop (sc : Scene) : List (Sel × DotTween) :=
  addDot sc Sel.pathExRedis Sel.dotExRedis 0.4 0 ++
  addDot sc Sel.pathRedisEngine Sel.dotRedisEngine 0.35 0.3 ++
  addDot sc (Sel.intPath 0) (Sel.intDot 0) 0.25 (0.55 + 0 * 0.03) ++
  addDot sc (Sel.intPath 1) (Sel.intDot 1) 0.25 (0.55 + 1 * 0.03) ++
  addDot sc (Sel.intPath 2) (Sel.intDot 2) 0.25 (0.55 + 2 * 0.03) ++
  addDot sc (Sel.intPath 3) (Sel.intDot 3) 0.25 (0.55 + 3 * 0.03) ++
  addDot sc Sel.pathEngineBroker Sel.dotEngineBroker 0.3 0.9 ++
  addDotReverse sc Sel.pathBrokerEngine Sel.dotBrokerEngine 0.3 1.3 ++
  addDot sc Sel.pathEngineDb Sel.dotEngineDb 0.3 0.8

/-- A declared motion step of a loop schedule: which path and marker it
targets, its duration and start offset, and its direction. -/
structure FlowDecl where
  pathSel : Sel
  dotSel : Sel
  duration : ℚ
  startTime : ℚ
  reverse : Bool

/-- The declared motion steps of the fast loop, as data. -/
def fastDecls : List FlowDecl :=
  [⟨Sel.pathExRedis, Sel.dotExRedis, 0.4, 0, false⟩,
   ⟨Sel.pathRedisEngine, Sel.dotRedisEngine, 0.35, 0.3, false⟩,
   ⟨Sel.intPath 0, Sel.intDot 0, 0.25, 0.55 + 0 * 0.03, false⟩,
   ⟨Sel.intPath 1, Sel.intDot 1, 0.25, 0.55 + 1 * 0.03, false⟩,
   ⟨Sel.intPath 2, Sel.intDot 2, 0.25, 0.55 + 2 * 0.03, false⟩,
   ⟨Sel.intPath 3, Sel.intDot 3, 0.25, 0.55 + 3 * 0.03, false⟩,
   ⟨Sel.pathEngineBroker, Sel.dotEngineBroker, 0.3, 0.9, false⟩,
   ⟨Sel.pathBrokerEngine, Sel.dotBrokerEngine, 0.3, 1.3, true⟩,
   ⟨Sel.pathEngineDb, Sel.dotEngineDb, 0.3, 0.8, false⟩]

/-- Modelled from the spec: the skip-missing-target policy, "if a named
target is missing from the scene graph, the corresponding step is skipped,
not retried".  A declared step contributes its tween exactly when both its
path and its marker are present. -/
def declTween (sc : Scene) (d : FlowDecl) : Option (Sel × DotTween) :=
  match sc.path d.pathSel, sc.dot d.dotSel with
  | some c, true =>
      some (d.dotSel,
        if d.reverse then animateDotReverse c d.duration d.startTime
        else animateDot c d.duration d.startTime)
  | _, _ => none

theorem addDot_eq_declTween (sc : Scene) (ps ds : Sel) (dur off : ℚ) :
    addDot sc ps ds dur off = (declTween sc ⟨ps, ds, dur, off, false⟩).toList := by
  rcases hp : sc.path ps with _ | c <;> rcases hd : sc.dot ds <;>
    simp [addDot, declTween, hp, hd]

theorem addDotReverse_eq_declTween (sc : Scene) (ps ds : Sel) (dur off : ℚ) :
    addDotReverse sc ps ds dur off
      = (declTween sc ⟨ps, ds, dur, off, true⟩).toList := by
  rcases hp : sc.path ps with _ | c <;> rcases hd : sc.dot ds <;>
    simp [addDotReverse, declTween, hp, hd]

theorem filterMap_cons_toList {α β : Type} (f : α → Option β) (a : α)
    (l : List α) :
    List.filterMap f (a :: l) = (f a).toList ++ List.filterMap f l := by
  rcases h : f a <;> simp [List.filterMap_cons, h]

/-- A GSAP timeline handle, reduced to the state the lifecycle claims talk
about: its playhead (`time`, in discrete ticker frames), whether it is
paused, whether it has been killed, its total duration, whether its
completion event has already fired, and a pending start delay (GSAP's
`delay`, consumed before the playhead advances). -/
structure Timeline where
  time : ℕ
  paused : Bool
  killed : Bool
  duration : ℕ
  done : Bool
  delay : ℕ
  deriving DecidableEq

/-- Embeds `gsap.timeline()` as used for the reveal schedule
(EngineFlowSlide.tsx line 120, LLMFlowSlide.tsx line 147): unpaused,
playhead at 0. -/
def mkReveal (d : ℕ) : Timeline where
  time := 0
  paused := false
  killed := false
  duration := d
  done := false
  delay := 0

/-- Embeds `gsap.timeline({ repeat: -1, repeatDelay: ..., paused: true })`
as used for the loop schedules (EngineFlowSlide.tsx line 164,
LLMFlowSlide.tsx lines 176 and 214): constructed in the paused state.
`dly` is the start delay applied at play time (0 for `fast.play()` and the
EngineFlowSlide loop, positive for `slow.delay(0.5).play()`). -/
def mkLoop (d dly : ℕ) : Timeline where
  time := 0
  paused := true
  killed := false
  duration := d
  done := false
  delay := dly

/-- The per-slide animation context driven by one effect run: the reveal
timeline, one loop timeline, the single `onComplete` callback slot of the
reveal (GSAP's `eventCallback` stores at most one callback per event type;
registering again replaces it), instrumented with the observation fields the
claims are stated over: how often the completion callback has invoked
`loop.play()` (`playCount`), the frame at which the reveal completion event
fired (`revealDoneAt`), the frame of the first loop playhead advance
(`loopFirstMut`), and the current frame number (`now`). -/
structure SlideCtx where
  reveal : Timeline
  loop : Timeline
  chainCB : Bool
  playCount : ℕ
  revealDoneAt : Option ℕ
  loopFirstMut : Option ℕ
  now : ℕ
  deriving DecidableEq

/-- A freshly constructed context before the completion chain is registered:
reveal playing from 0, loop paused (as constructed), no callback yet. -/
def mkSlide (dr dl dly : ℕ) : SlideCtx where
  reveal := mkReveal dr
  loop := mkLoop dl dly
  chainCB := false
  playCount := 0
  revealDoneAt := none
  loopFirstMut := none
  now := 0

/-- Embeds `reveal.eventCallback("onComplete", () => { loop.play(); })`
(EngineFlowSlide.tsx line 167; LLMFlowSlide.tsx lines 218-221 is the same
shape for both loops).  `eventCallback` SETS the timeline's single
`onComplete` slot, so a repeated registration replaces the previous one
rather than adding a second callback. -/
def chain (s : SlideCtx) : SlideCtx :=
  { s with chainCB := true }

/-- The context as the effect body leaves it: constructed and chained. -/
def initCtx (dr dl dly : ℕ) : SlideCtx :=
  chain (mkSlide dr dl dly)

/-- One ticker frame's update of the reveal timeline at frame `n`: a
playing, unfinished reveal advances; on reaching its duration its
`onComplete` event fires, which runs the registered callback —
`loop.play()`, clearing the loop's paused flag. -/
def advReveal (s : SlideCtx) (n : ℕ) : SlideCtx :=
  if s.reveal.killed = true then s
  else if s.reveal.paused = true then s
  else if s.reveal.done = true then s
  else if s.reveal.time + 1 < s.reveal.duration then
    { s with reveal := { s.reveal with time := s.reveal.time + 1 } }
  else if s.chainCB = true then
    { s with
      reveal := { s.reveal with time := s.reveal.duration, done := true },
      revealDoneAt := some n,
      loop := { s.loop with paused := false },
      playCount := s.playCount + 1 }
  else
    { s with
      reveal := { s.reveal with time := s.reveal.duration, done := true },
      revealDoneAt := some n }

/-- One ticker frame's update of the loop timeline at frame `n`: a killed or
paused loop does not move; a pending start delay is consumed first; otherwise
the playhead advances (the loop repeats forever, so it never completes) and
the frame of the first advance is recorded. -/
def advLoop (s : SlideCtx) (n : ℕ) : SlideCtx :=
  if s.loop.killed = true then s
  else if s.loop.paused = true then s
  else if 0 < s.loop.delay then
    { s with loop := { s.loop with delay := s.loop.delay - 1 } }
  else
    { s with
      loop := { s.loop with time := s.loop.time + 1 },
      loopFirstMut :=
        match s.loopFirstMut with
        | none => some n
        | some a => some a }

/-- One frame of the host's single-threaded animation clock: both timelines
are advanced together (reveal first, so the completion callback can start
the loop within the same scheduler pass). -/
def tick (s : SlideCtx) : SlideCtx :=
  let n := s.now + 1
  { advLoop (advReveal s n) n with now := n }

/-- `run s n` is the state after `n` ticker frames. -/
def run (s : SlideCtx) : ℕ → SlideCtx
  | 0 => s
  | n + 1 => tick (run s n)

/-- The reachability invariant of the reveal-to-loop handoff, with all
recorded frame numbers bounded by `n`: the chain callback is registered, the
completion event has fired exactly when `done` is set, the loop stays paused
until the completion event fires, a paused loop has never advanced, recorded
frames are at most `n`, any first loop advance happens at or after the
recorded completion frame, and the callback has run `loop.play()` exactly
once when (and only when) the completion event has fired. -/
def InvAt (n : ℕ) (s : SlideCtx) : Prop :=
  s.chainCB = true ∧
  (s.reveal.done = false ↔ s.revealDoneAt = none) ∧
  (s.revealDoneAt = none → s.loop.paused = true) ∧
  (s.loop.paused = true → s.loopFirstMut = none) ∧
  (∀ c, s.revealDoneAt = some c → c ≤ n) ∧
  (∀ a, s.loopFirstMut = some a → ∃ c, s.revealDoneAt = some c ∧ c ≤ a) ∧
  s.playCount = (if s.revealDoneAt = none then 0 else 1)

theorem invAt_mono {n m : ℕ} {s : SlideCtx} (hnm : n ≤ m) (h : InvAt n s) :
    InvAt m s := by
  obtain ⟨h1, h2, h3, h4, h5, h6, h7⟩ := h
  exact ⟨h1, h2, h3, h4, fun c hc => le_trans (h5 c hc) hnm, h6, h7⟩

theorem invAt_advReveal (n : ℕ) (s : SlideCtx) (h : InvAt n s) :
    InvAt n (advReveal s n) := by
  obtain ⟨h1, h2, h3, h4, h5, h6, h7⟩ := h
  unfold advReveal
  split_ifs with hk hp hd ht
  · exact ⟨h1, h2, h3, h4, h5, h6, h7⟩
  · exact ⟨h1, h2, h3, h4, h5, h6, h7⟩
  · exact ⟨h1, h2, h3, h4, h5, h6, h7⟩
  · exact ⟨h1, h2, h3, h4, h5, h6, h7⟩
  · have hrda : s.revealDoneAt = none := by
      simp only [Bool.not_eq_true] at hd
      exact h2.mp hd
    have hfm : s.loopFirstMut = none := h4 (h3 hrda)
    refine ⟨h1, by simp, by simp, ?_, ?_, ?_, ?_⟩
    · intro _
      simpa using hfm
    · intro c hc
      simp only at hc
      exact Nat.le_of_eq (Option.some.inj hc).symm
    · intro a ha
      simp only at ha
      simp [hfm] at ha
    · simp only
      simp [hrda] at h7
      simp [h7]

theorem invAt_advLoop (n : ℕ) (s : SlideCtx) (h : InvAt n s) :
    InvAt n (advLoop s n) := by
  obtain ⟨h1, h2, h3, h4, h5, h6, h7⟩ := h
  unfold advLoop
  split_ifs with hk hp hd
  · exact ⟨h1, h2, h3, h4, h5, h6, h7⟩
  · exact ⟨h1, h2, h3, h4, h5, h6, h7⟩
  · refine ⟨h1, h2, ?_, ?_, h5, h6, h7⟩
    · intro hr
      exact h3 hr
    · intro hpnew
      exact absurd hpnew hp
  · have hrda : ∃ c, s.revealDoneAt = some c := by
      rcases hr : s.revealDoneAt with _ | c
      · exact absurd (h3 hr) hp
      · exact ⟨c, rfl⟩
    obtain ⟨c, hc⟩ := hrda
    refine ⟨h1, h2, ?_, ?_, h5, ?_, h7⟩
    · intro hr
      simp only at hr
      rw [hr] at hc
      simp at hc
    · intro hpnew
      exact absurd hpnew hp
    · intro a ha
      simp only at ha
      rcases hm : s.loopFirstMut with _ | b
      · rw [hm] at ha
        simp only at ha
        refine ⟨c, hc, ?_⟩
        rw [← Option.some.inj ha]
        exact h5 c hc
      · rw [hm] at ha
        simp only at ha
        have hba : b = a := Option.some.inj ha
        obtain ⟨c2, hc2, hcb⟩ := h6 b hm
        exact ⟨c2, hc2, hba ▸ hcb⟩

theorem invAt_tick (s : SlideCtx) (h : InvAt s.now s) :
    InvAt (s.now + 1) (tick s) ∧ (tick s).now = s.now + 1 := by
  refine ⟨?_, rfl⟩
  have hmono := invAt_mono (Nat.le_succ s.now) h
  have hrev := invAt_advReveal (s.now + 1) s hmono
  have hloop := invAt_advLoop (s.now + 1) (advReveal s (s.now + 1)) hrev
  obtain ⟨g1, g2, g3, g4, g5, g6, g7⟩ := hloop
  exact ⟨g1, g2, g3, g4, g5, g6, g7⟩

theorem invAt_run (dr dl dly n : ℕ) :
    InvAt n (run (initCtx dr dl dly) n) ∧
      (run (initCtx dr dl dly) n).now = n := by
  induction n with
  | zero =>
    refine ⟨?_, rfl⟩
    simp [InvAt, run, initCtx, chain, mkSlide, mkReveal, mkLoop]
  | succ k ih =>
    obtain ⟨hI, hnow⟩ := ih
    have hI2 : InvAt (run (initCtx dr dl dly) k).now (run (initCtx dr dl dly) k) := by
      rw [hnow]
      exact hI
    have := invAt_tick (run (initCtx dr dl dly) k) hI2
    rw [hnow] at this
    exact this

/-- GSAP's `timeline.pause(atTime)`: jumps the playhead to `atTime` and
pauses there.  `pause(0)` therefore rewinds the playhead to 0 as it pauses. -/
def pauseAt (t : Timeline) (atTime : ℕ) : Timeline :=
  { t with paused := true, time := atTime }

/-- Embeds the deactivation branch of the slide effects
(EngineFlowSlide.tsx lines 107-110, LLMFlowSlide.tsx lines 132-136): when
`active` turns false the effect runs
`revealTlRef.current?.pause(0); loopTlRef.current?.pause(0);`. -/
def deactivateSlide (s : SlideCtx) : SlideCtx :=
  { s with reveal := pauseAt s.reveal 0, loop := pauseAt s.loop 0 }

/-- GSAP's `timeline.restart()`: rewinds to time 0 and plays. -/
def restart (t : Timeline) : Timeline :=
  { t with time := 0, paused := false, done := false }

/-- Embeds the `active` effect of `useGsapTimeline`
(useGsapTimeline.ts lines 22-28): `restart()` when `active` is true,
`pause(0)` when it is false. -/
def useGsapActiveEffect (active : Bool) (t : Timeline) : Timeline :=
  if active then restart t else pauseAt t 0

/-- GSAP's `timeline.kill()`: the timeline is removed from the ticker and
made permanently inert; its tweens never receive another update. -/
def killTimeline (t : Timeline) : Timeline :=
  { t with killed := true, paused := true }

/-- Killing a whole slide context, embedding the effect cleanup
`reveal.kill(); loop.kill();` (EngineFlowSlide.tsx lines 262-265,
LLMFlowSlide.tsx lines 258-262). -/
def killCtx (s : SlideCtx) : SlideCtx :=
  { s with reveal := killTimeline s.reveal, loop := killTimeline s.loop }

/-- A context counts as destroyed when both of its timelines are killed. -/
def ctxKilled (s : SlideCtx) : Bool :=
  s.reveal.killed && s.loop.killed

/-- The component's timeline refs across effect runs: the context the refs
currently point at, plus every context created earlier (all of which should
have been killed when they were replaced). -/
structure SlideRefs where
  current : Option SlideCtx
  graveyard : List SlideCtx

/-- Embeds the rebuild on activation (EngineFlowSlide.tsx lines 106-121):
the effect first kills whatever the refs still point at
(`revealTlRef.current?.kill(); loopTlRef.current?.kill();`) and only then
constructs and chains fresh timelines, storing them in the refs. -/
def buildEffect (r : SlideRefs) (dr dl dly : ℕ) : SlideRefs where
  current := some (initCtx dr dl dly)
  graveyard :=
    (match r.current with
     | some c => [killCtx c]
     | none => []) ++ r.graveyard

/-- How many contexts tracked by the refs are still live (not destroyed). -/
def liveCount (r : SlideRefs) : ℕ :=
  (match r.current with
   | some c => if ctxKilled c then 0 else 1
   | none => 0) +
  (r.graveyard.filter (fun c => !ctxKilled c)).length

/-- A queued frame callback of a dot tween OWNED BY a slide timeline: the
`onUpdate` position write of `animateDot`, guarded by its owning timeline's
liveness — GSAP never ticks a killed timeline's tweens, so the write happens
only if the timeline is not killed, otherwise the marker keeps its previous
position.  This covers only the tweens inserted into the slide's reveal and
loop timelines; the completion fade that `onComplete` spawns lives on the
global timeline instead and is modelled separately by `SpawnedFade`. -/
def frameCallback (t : Timeline) (c : Curve) (p : ℚ) (pos : ℚ × ℚ) : ℚ × ℚ :=
  if t.killed then pos else c.pointAt (p * c.length)

/-- The completion fade spawned by `animateDot`'s `onComplete`:
`gsap.to(dot, { opacity: 0, duration: 0.12, ease: "power2.out" })` creates a
tween parented to GSAP's GLOBAL timeline, not to the slide's reveal or loop
timeline, so killing the slide timelines does not kill it.  `killed` records
whether anything has explicitly killed this global tween — the source never
does. -/
structure SpawnedFade where
  toOpacity : ℚ
  duration : ℚ
  ease : EaseKind
  killed : Bool
  deriving DecidableEq

/-- The fade that a dot tween's `onComplete` spawns, taken field-for-field
from the tween's completion-fade parameters; it starts live on the global
timeline. -/
def spawnFadeOf (dt : DotTween) : SpawnedFade where
  toOpacity := dt.completeFadeOpacity
  duration := dt.completeFadeDuration
  ease := dt.completeFadeEase
  killed := false

/-- The scene at destroy time: the slide's animation context plus the
completion fades already spawned onto the global timeline and still in
flight against this context's markers. -/
structure DestroyScene where
  ctx : SlideCtx
  inflight : List SpawnedFade

/-- Embeds the effect cleanup (EngineFlowSlide.tsx lines 262-265,
LLMFlowSlide.tsx lines 258-262): it calls `reveal.kill(); loop.kill();` and
nothing else — in particular no `gsap.killTweensOf(dot)` — so the in-flight
completion fades on the global timeline are left untouched. -/
def destroyCtx (d : DestroyScene) : DestroyScene where
  ctx := killCtx d.ctx
  inflight := d.inflight

/-- A queued frame callback of a completion fade: guarded only by the global
tween's OWN killed flag, so while that tween is live every global ticker
frame writes the frame's eased opacity value `v` to the marker, regardless
of the slide timelines' killed state. -/
def fadeFrameCallback (f : SpawnedFade) (v opacity : ℚ) : ℚ :=
  if f.killed then opacity else v

/-- The navigation state held by `useSlideNavigation`
(useSlideNavigation.ts lines 8-9): `useState(0)` for the slide index and
`useState(0)` for the transition direction. -/
structure NavState where
  currentSlide : ℤ
  direction : ℤ
  deriving DecidableEq

/-- The initial navigation state. -/
def navInit : NavState where
  currentSlide := 0
  direction := 0

/-- Embeds `goToSlide` (useSlideNavigation.ts lines 11-19):
`if (index >= 0 && index < totalSlides) { setDirection(index > currentSlide
? 1 : -1); setCurrentSlide(index); }`. -/
def goToSlide (totalSlides : ℤ) (s : NavState) (index : ℤ) : NavState :=
  if 0 ≤ index ∧ index < totalSlides then
    { currentSlide := index,
      direction := if s.currentSlide < index then 1 else -1 }
  else s

/-- Embeds `nextSlide` (useSlideNavigation.ts lines 21-26). -/
def nextSlide (totalSlides : ℤ) (s : NavState) : NavState :=
  if s.currentSlide < totalSlides - 1 then
    { currentSlide := s.currentSlide + 1, direction := 1 }
  else s

/-- Embeds `prevSlide` (useSlideNavigation.ts lines 28-33). -/
def prevSlide (s : NavState) : NavState :=
  if 0 < s.currentSlide then
    { currentSlide := s.currentSlide - 1, direction := -1 }
  else s

/-- A user-visible navigation action (keyboard or click). -/
inductive NavOp where
  | next
  | prev
  | goTo (i : ℤ)

/-- Applies one navigation action. -/
def applyOp (totalSlides : ℤ) (s : NavState) : NavOp → NavState
  | NavOp.next => nextSlide totalSlides s
  | NavOp.prev => prevSlide s
  | NavOp.goTo i => goToSlide totalSlides s i

/-- Runs a sequence of navigation actions from the initial state. -/
def runNav (totalSlides : ℤ) (ops : List NavOp) : NavState :=
  ops.foldl (applyOp totalSlides) navInit

/-- The navigation invariant: the slide index stays on a valid slide and the
direction stays in the three-valued sign range. -/
def NavInv (totalSlides : ℤ) (s : NavState) : Prop :=
  0 ≤ s.currentSlide ∧ s.currentSlide ≤ totalSlides - 1 ∧
    (s.direction = -1 ∨ s.direction = 0 ∨ s.direction = 1)

theorem navInv_applyOp (totalSlides : ℤ) (s : NavState) (op : NavOp)
    (h : NavInv totalSlides s) : NavInv totalSlides (applyOp totalSlides s op) := by
  obtain ⟨h1, h2, h3⟩ := h
  cases op with
  | next =>
    simp only [applyOp, nextSlide]
    split_ifs with hlt
    · exact ⟨show (0:ℤ) ≤ s.currentSlide + 1 by omega,
        show s.currentSlide + 1 ≤ totalSlides - 1 by omega,
        Or.inr (Or.inr rfl)⟩
    · exact ⟨h1, h2, h3⟩
  | prev =>
    simp only [applyOp, prevSlide]
    split_ifs with hlt
    · exact ⟨show (0:ℤ) ≤ s.currentSlide - 1 by omega,
        show s.currentSlide - 1 ≤ totalSlides - 1 by omega,
        Or.inl rfl⟩
    · exact ⟨h1, h2, h3⟩
  | goTo i =>
    simp only [applyOp, goToSlide]
    split_ifs with hrange hdir
    · exact ⟨show (0:ℤ) ≤ i by omega, show i ≤ totalSlides - 1 by omega,
        Or.inr (Or.inr rfl)⟩
    · exact ⟨show (0:ℤ) ≤ i by omega, show i ≤ totalSlides - 1 by omega,
        Or.inl rfl⟩
    · exact ⟨h1, h2, h3⟩

theorem navInv_foldl (totalSlides : ℤ) (ops : List NavOp) (s : NavState)
    (h : NavInv totalSlides s) :
    NavInv totalSlides (ops.foldl (applyOp totalSlides) s) := by
  induction ops generalizing s with
  | nil => exact h
  | cons op rest ih =>
    exact ih (applyOp totalSlides s op) (navInv_applyOp totalSlides s op h)

/-- Claim C1: for every slide, the loop schedule never begins advancing before the
reveal schedule completes — the loop timeline is constructed paused and is
started only from the reveal timeline's completion callback, so in every
execution of the frame clock the first loop-schedule mutation frame is at or
after the reveal-schedule completion frame. -/
theorem C1_loop_starts_at_or_after_reveal_completion
    (dr dl dly n a : ℕ)
    (h : (run (initCtx dr dl dly) n).loopFirstMut = some a) :
    (initCtx dr dl dly).loop.paused = true ∧
      ∃ c, (run (initCtx dr dl dly) n).revealDoneAt = some c ∧ c ≤ a := by
  refine ⟨rfl, ?_⟩
  have hinv := (invAt_run dr dl dly n).1
  exact hinv.2.2.2.2.2.1 a h

/-- Witness for C1 at concrete inputs: with a reveal of duration 2 and a
loop of duration 3, after 2 frames the loop has first moved at frame 2 and
the reveal completed at a frame at most 2. -/
theorem C1_witness :
    (run (initCtx 2 3 0) 2).loopFirstMut = some 2 ∧
      ((initCtx 2 3 0).loop.paused = true ∧
        ∃ c, (run (initCtx 2 3 0) 2).revealDoneAt = some c ∧ c ≤ 2) :=
  ⟨by decide, C1_loop_starts_at_or_after_reveal_completion 2 3 0 2 2 (by decide)⟩

/-- Claim C5: the reveal-complete hook that starts `loop.play()` fires exactly
once per reveal run (`playCount` is 1 as soon as the completion event has
fired and never more), and registering the chain a second time for the same
reveal/loop pair is the identity on the context, so it cannot double-start
the loop. -/
theorem C5_chain_fires_once_and_is_reentrant
    (s : SlideCtx) (dr dl dly n : ℕ) :
    chain (chain s) = chain s ∧
      (run (initCtx dr dl dly) n).playCount ≤ 1 ∧
      ((run (initCtx dr dl dly) n).revealDoneAt ≠ none →
        (run (initCtx dr dl dly) n).playCount = 1) := by
  have h7 := (invAt_run dr dl dly n).1.2.2.2.2.2.2
  refine ⟨rfl, ?_, ?_⟩
  · rw [h7]
    split_ifs <;> omega
  · intro hne
    rw [h7, if_neg hne]

/-- Witness for C5 at concrete inputs. -/
theorem C5_witness :
    chain (chain (mkSlide 1 1 0)) = chain (mkSlide 1 1 0) ∧
      (run (initCtx 2 3 0) 4).playCount = 1 :=
  ⟨(C5_chain_fires_once_and_is_reentrant (mkSlide 1 1 0) 2 3 0 4).1,
   (C5_chain_fires_once_and_is_reentrant (mkSlide 1 1 0) 2 3 0 4).2.2 (by decide)⟩

/-- Counterexample for C2: after 4 frames the loop playhead of a running slide
context sits at frame 3, but the deactivation handler (`pause(0)` on both
timelines) rewinds it to 0 — the schedules are NOT frozen at their current
playhead time, contradicting the claim. -/
theorem C2_counterexample :
    (run (initCtx 2 5 0) 4).loop.time = 3 ∧
      (deactivateSlide (run (initCtx 2 5 0) 4)).loop.time = 0 ∧
      ¬((deactivateSlide (run (initCtx 2 5 0) 4)).loop.time
          = (run (initCtx 2 5 0) 4).loop.time) :=
  ⟨by decide, by decide, by decide⟩

/-- Amended claim C2: when `active` becomes false both schedules are paused with
their playhead reset to 0 (`pause(0)`), and when `active` becomes true again
the schedules do not resume from a paused position: `useGsapTimeline`
restarts its timeline from time 0, playing. -/
theorem C2_amended_deactivation_resets_to_zero (s : SlideCtx) (t : Timeline) :
    (deactivateSlide s).reveal.paused = true ∧
      (deactivateSlide s).reveal.time = 0 ∧
      (deactivateSlide s).loop.paused = true ∧
      (deactivateSlide s).loop.time = 0 ∧
      (useGsapActiveEffect false t).paused = true ∧
      (useGsapActiveEffect false t).time = 0 ∧
      (useGsapActiveEffect true t).paused = false ∧
      (useGsapActiveEffect true t).time = 0 :=
  ⟨rfl, rfl, rfl, rfl, rfl, rfl, rfl, rfl⟩

/-- Counterexample for C6: the completion fade that `animateDot` spawns is a
global-timeline tween, and the destroy path kills only the reveal and loop
timelines, so a fade in flight at destroy time survives destroy unkilled and
its next frame callback still writes the marker's opacity (here 0.9 becomes
0.5) — the claim that after destroy every queued frame callback referencing
that context's markers is inert and performs no writes is false. -/
theorem C6_counterexample :
    ctxKilled (destroyCtx
        ⟨initCtx 2 3 0, [spawnFadeOf (animateDot unitCurve 0.4 0)]⟩).ctx = true ∧
      (destroyCtx ⟨initCtx 2 3 0,
          [spawnFadeOf (animateDot unitCurve 0.4 0)]⟩).inflight
        = [spawnFadeOf (animateDot unitCurve 0.4 0)] ∧
      (spawnFadeOf (animateDot unitCurve 0.4 0)).killed = false ∧
      fadeFrameCallback (spawnFadeOf (animateDot unitCurve 0.4 0)) (1/2) (9/10)
        = 1/2 ∧
      ¬(fadeFrameCallback (spawnFadeOf (animateDot unitCurve 0.4 0)) (1/2) (9/10)
          = 9/10) :=
  ⟨rfl, rfl, rfl, rfl, by norm_num [fadeFrameCallback, spawnFadeOf, animateDot]⟩

/-- Amended claim C6: destroying a slide's animation context is idempotent,
building a new context first destroys any prior context so exactly one live
context remains per slide, and after destroy the killed timelines' own
queued `onUpdate` frame callbacks are inert and perform no position writes —
but destroy does not reach the completion fades spawned onto the global
timeline: destroy leaves the in-flight fades untouched, and a spawned fade's
frame callback keeps writing the marker's opacity (for up to its 0.12-second
duration) regardless of the slide timelines' killed state. -/
theorem C6_amended_destroy_scope
    (s : SlideCtx) (r : SlideRefs) (dr dl dly : ℕ)
    (hg : ∀ c ∈ r.graveyard, ctxKilled c = true) :
    killCtx (killCtx s) = killCtx s ∧
      liveCount (buildEffect r dr dl dly) = 1 ∧
      (∀ c ∈ (buildEffect r dr dl dly).graveyard, ctxKilled c = true) ∧
      (∀ (t : Timeline) (cu : Curve) (p : ℚ) (pos : ℚ × ℚ),
        frameCallback (killTimeline t) cu p pos = pos) ∧
      (∀ d : DestroyScene, (destroyCtx d).inflight = d.inflight) ∧
      (∀ (dt : DotTween) (v opacity : ℚ),
        fadeFrameCallback (spawnFadeOf dt) v opacity = v) := by
  have hgrave : ∀ c ∈ (buildEffect r dr dl dly).graveyard, ctxKilled c = true := by
    intro c hc
    simp only [buildEffect] at hc
    rcases List.mem_append.mp hc with hvc | hvg
    · rcases hcur : r.current with _ | c0
      · rw [hcur] at hvc
        simp at hvc
      · rw [hcur] at hvc
        simp only [List.mem_singleton] at hvc
        subst hvc
        rfl
    · exact hg c hvg
  refine ⟨rfl, ?_, hgrave, fun t cu p pos => rfl, fun d => rfl,
    fun dt v opacity => rfl⟩
  have hfil :
      ((buildEffect r dr dl dly).graveyard.filter (fun c => !ctxKilled c)) = [] := by
    rw [List.filter_eq_nil_iff]
    intro c hc
    rw [hgrave c hc]
    simp
  simp only [liveCount, buildEffect] at hfil ⊢
  rw [hfil]
  rfl

/-- Witness for C6 (amended) at concrete inputs. -/
theorem C6_amended_witness :
    (∀ c ∈ [killCtx (mkSlide 1 1 0)], ctxKilled c = true) ∧
      liveCount (buildEffect ⟨some (initCtx 1 2 0), [killCtx (mkSlide 1 1 0)]⟩ 2 3 0) = 1 :=
  ⟨by decide,
   (C6_amended_destroy_scope (mkSlide 0 0 0)
      ⟨some (initCtx 1 2 0), [killCtx (mkSlide 1 1 0)]⟩ 2 3 0 (by decide)).2.1⟩

/-- Claim C3: for every curve and every progress fraction `t` in `[0, 1]`, the
reverse sampler equals the forward sampler at `1 - t`, the forward sample at
`t = 0` is the curve start `pointAt 0`, and at `t = 1` it is the curve end
`pointAt length`. -/
theorem C3_reverse_sampler_is_forward_complement
    (c : Curve) (d s t : ℚ) (h0 : 0 ≤ t) (h1 : t ≤ 1) :
    (animateDotReverse c d s).posAt t = (animateDot c d s).posAt (1 - t) ∧
      (animateDot c d s).posAt 0 = c.pointAt 0 ∧
      (animateDot c d s).posAt 1 = c.pointAt c.length := by
  refine ⟨rfl, ?_, ?_⟩
  · simp [animateDot]
  · simp [animateDot]

/-- Witness for C3 at `t = 1/4` on the length-100 test curve. -/
theorem C3_witness :
    (0:ℚ) ≤ 1/4 ∧ (1/4:ℚ) ≤ 1 ∧
      ((animateDotReverse unitCurve 1 0).posAt (1/4)
          = (animateDot unitCurve 1 0).posAt (1 - 1/4) ∧
        (animateDot unitCurve 1 0).posAt 0 = unitCurve.pointAt 0 ∧
        (animateDot unitCurve 1 0).posAt 1 = unitCurve.pointAt unitCurve.length) :=
  ⟨by norm_num, by norm_num,
   C3_reverse_sampler_is_forward_complement unitCurve 1 0 (1/4)
     (by norm_num) (by norm_num)⟩

/-- Claim C4: for every scene, the fast-loop schedule that the straight-line
effect code builds is exactly the declared motion list filtered down to the
steps whose path and marker are both present — every absent step is skipped
as a no-op, every present step is still inserted, and construction is a
total function (it cannot throw on a partially-ready scene). -/
theorem C4_missing_target_steps_skipped (sc : Scene) :
    buildFastLoop sc = fastDecls.filterMap (declTween sc) := by
  simp only [buildFastLoop, fastDecls, filterMap_cons_toList, List.filterMap_nil,
    addDot_eq_declTween, addDotReverse_eq_declTween, List.append_nil,
    List.append_assoc]

/-- Counterexample for C7: `animateDot` inserts exactly ONE tween into the
schedule at the given start offset (the completion fade is a separate tween
spawned only when the motion completes, and the fade-in is not a separate
lead-in effect), so the claim that three chained effects are inserted is
false. -/
theorem C7_counterexample :
    (animateDotInto [] unitCurve 0.4 0).length = 1 ∧
      ¬((animateDotInto [] unitCurve 0.4 0).length = 3) := by
  constructor
  · rfl
  · simp [animateDotInto]

/-- Amended claim C7: `animateDot` inserts a single tween at the given start
offset which fades the marker opacity from 0 to 0.9 over the FULL duration
with the sine.inOut ease (the ease shapes the opacity value, not the path
progress), while its update callback drives the marker position along the
whole curve as `pointAt (progress * length)` for the tween's playhead
fraction `progress`, and on completion it spawns a separate 0.12-second
power2.out fade of the opacity back to 0. -/
theorem C7_amended_single_tween_full_duration_fade
    (c : Curve) (d s : ℚ) (tl : List DotTween) :
    animateDotInto tl c d s = tl ++ [animateDot c d s] ∧
      (animateDot c d s).fromOpacity = 0 ∧
      (animateDot c d s).toOpacity = 0.9 ∧
      (animateDot c d s).duration = d ∧
      (animateDot c d s).startTime = s ∧
      (animateDot c d s).ease = EaseKind.sineInOut ∧
      (∀ p, (animateDot c d s).posAt p = c.pointAt (p * c.length)) ∧
      (animateDot c d s).posAt 0 = c.pointAt 0 ∧
      (animateDot c d s).posAt 1 = c.pointAt c.length ∧
      (animateDot c d s).completeFadeOpacity = 0 ∧
      (animateDot c d s).completeFadeDuration = 0.12 ∧
      (animateDot c d s).completeFadeEase = EaseKind.power2Out := by
  refine ⟨rfl, rfl, rfl, rfl, rfl, rfl, fun p => rfl, ?_, ?_, rfl, rfl, rfl⟩
  · simp [animateDot]
  · simp [animateDot]

/-- Claim C8: from the initial navigation state, any sequence of
next/prev/goTo actions keeps the slide index within `[0, totalSlides - 1]`
and the direction within `{-1, 0, 1}`; moreover `nextSlide` on the last
slide, `prevSlide` on the first slide, and `goToSlide` with an out-of-range
index leave the state unchanged. -/
theorem C8_navigation_stays_in_range
    (total : ℤ) (ht : 0 < total) (ops : List NavOp) :
    NavInv total (runNav total ops) ∧
      (∀ s : NavState, s.currentSlide = total - 1 → nextSlide total s = s) ∧
      (∀ s : NavState, s.currentSlide = 0 → prevSlide s = s) ∧
      (∀ (s : NavState) (i : ℤ), ¬(0 ≤ i ∧ i < total) → goToSlide total s i = s) := by
  refine ⟨?_, ?_, ?_, ?_⟩
  · have hbase : NavInv total navInit := by
      refine ⟨?_, ?_, Or.inr (Or.inl rfl)⟩
      · show (0:ℤ) ≤ 0
        omega
      · show (0:ℤ) ≤ total - 1
        omega
    exact navInv_foldl total ops navInit hbase
  · intro s hs
    simp only [nextSlide]
    rw [if_neg (by omega : ¬(s.currentSlide < total - 1))]
  · intro s hs
    simp only [prevSlide]
    rw [if_neg (by omega : ¬((0:ℤ) < s.currentSlide))]
  · intro s i hi
    simp only [goToSlide]
    rw [if_neg hi]

/-- Witness for C8 at `totalSlides = 3` with a concrete action sequence
(including an out-of-range `goTo 5` and a `next` at the boundary). -/
theorem C8_witness :
    (0:ℤ) < 3 ∧
      NavInv 3 (runNav 3 [NavOp.next, NavOp.goTo 5, NavOp.next, NavOp.next, NavOp.prev]) :=
  ⟨by decide,
   (C8_navigation_stays_in_range 3 (by decide)
      [NavOp.next, NavOp.goTo 5, NavOp.next, NavOp.next, NavOp.prev]).1⟩

/-- Counterexample for C9: `goToSlide 0` from the initial state (index 0) is an
in-range call whose index delta is 0, so the claim requires direction 0, but
the code stores `-1` (`index > currentSlide ? 1 : -1`). -/
theorem C9_counterexample :
    (goToSlide 3 navInit 0).direction = -1 ∧
      Int.sign (0 - navInit.currentSlide) = 0 ∧
      ¬((goToSlide 3 navInit 0).direction = Int.sign (0 - navInit.currentSlide)) :=
  ⟨by decide, by decide, by decide⟩

/-- Amended claim C9: after an in-range `goToSlide index` call the stored index is
`index` and the stored direction is `+1` exactly for a forward move and `-1`
otherwise — that is, `-1` both for a backward move and when the target index
equals the current slide. -/
theorem C9_amended_direction_sign_rule
    (total i : ℤ) (s : NavState) (h0 : 0 ≤ i) (h1 : i < total) :
    (goToSlide total s i).currentSlide = i ∧
      (s.currentSlide < i → (goToSlide total s i).direction = 1) ∧
      (i < s.currentSlide → (goToSlide total s i).direction = -1) ∧
      (i = s.currentSlide → (goToSlide total s i).direction = -1) := by
  simp only [goToSlide, if_pos (show 0 ≤ i ∧ i < total from ⟨h0, h1⟩)]
  refine ⟨by trivial, ?_, ?_, ?_⟩
  · intro hlt
    show (if s.currentSlide < i then (1:ℤ) else -1) = 1
    rw [if_pos hlt]
  · intro hlt
    show (if s.currentSlide < i then (1:ℤ) else -1) = -1
    rw [if_neg (by omega)]
  · intro heq
    show (if s.currentSlide < i then (1:ℤ) else -1) = -1
    rw [if_neg (by omega)]

/-- Witness for C9 (amended) at `total = 3`, `index = 2` from the initial
state: a forward move stores direction 1. -/
theorem C9_witness :
    (0:ℤ) ≤ 2 ∧ (2:ℤ) < 3 ∧ (goToSlide 3 navInit 2).currentSlide = 2 ∧
      (goToSlide 3 navInit 2).direction = 1 :=
  ⟨by decide, by decide,
   (C9_amended_direction_sign_rule 3 2 navInit (by decide) (by decide)).1,
   (C9_amended_direction_sign_rule 3 2 navInit (by decide) (by decide)).2.1
     (by decide)⟩

/-- Claim C10: for all inputs, `bezierH` produces a single cubic segment that
starts exactly at `(x1, y1)` (also as the Bezier value at `t = 0`), ends
exactly at `(x2, y2)` (the Bezier value at `t = 1`), with both control
points at the horizontal midpoint `(x1 + x2) / 2`, at heights `y1` and `y2`
respectively. -/
theorem C10_bezierH_endpoints_and_controls (x1 y1 x2 y2 : ℚ) :
    (bezierH x1 y1 x2 y2).p0 = (x1, y1) ∧
      (bezierH x1 y1 x2 y2).p3 = (x2, y2) ∧
      cubicPoint (bezierH x1 y1 x2 y2) 0 = (x1, y1) ∧
      cubicPoint (bezierH x1 y1 x2 y2) 1 = (x2, y2) ∧
      (bezierH x1 y1 x2 y2).c1 = ((x1 + x2) / 2, y1) ∧
      (bezierH x1 y1 x2 y2).c2 = ((x1 + x2) / 2, y2) := by
  refine ⟨rfl, rfl, ?_, ?_, rfl, rfl⟩
  · simp [cubicPoint, bezierH]
  · simp [cubicPoint, bezierH]
